import Mathlib

/-!
Shallow embedding of the text-fit compositor in `src/lambda_function.py`:
the core `add_bubble_with_names` (lines 139-198) and the name-list guard of
`lambda_handler` (lines 57-62).

Modelling conventions:
- PIL font metrics are abstracted by a function `measure : Nat → Nat × Nat`
  giving the `(text_w, text_h)` that `multiline_textbbox` reports for the
  joined text at a given truetype font size (the text and spacing are fixed
  for one invocation, so the size is the only varying argument).
- Python float arithmetic (`base_w * size_ratio` at line 167 and
  `new_width * aspect_ratio` at line 169) is modelled exactly over
  rationals realised as numerator/denominator pairs of naturals with floor
  division, matching `int(...)` truncation on non-negative values.
- Python `//` (floor division on possibly negative ints, lines 183-184 and
  190-191) is `Int.fdiv`.
- The fields `iters` and `floorHit` of `FitState` are ghost
  instrumentation recording how many measurements the loop performed and
  which exit was taken; they do not influence any computed value.
-/

/-- Result of the `while True` font-size search loop (lines 157-179).
`fontSize` is the value of the Python `font_size` variable at loop exit;
`fontLoadedSize` is the size of the font object actually held in the
`font` variable (the two differ when the floor branch at lines 176-178
sets `font_size = 15` and breaks without reloading the font).
`newWidth`/`newHeight` are the last computed bubble dimensions, consumed
by the resize at line 182. -/
structure FitState where
  fontSize : Nat
  fontLoadedSize : Nat
  newWidth : Nat
  newHeight : Nat
  iters : Nat
  floorHit : Bool
  deriving Repr, DecidableEq

/-- Fixed padding added around the text (line 155). -/
def padding : Nat := 60

/-- Candidate bubble width at font size `fs` (lines 159-167):
`new_width = max(int(base_w * size_ratio), text_w + padding)`, where
`ratioW` is the precomputed `int(base_w * size_ratio)`. -/
def bubbleW (measure : Nat → Nat × Nat) (ratioW fs : Nat) : Nat :=
  max ratioW ((measure fs).1 + padding)

/-- Candidate bubble height at font size `fs` (lines 168-169):
`new_height = max(int(new_width * aspect_ratio), text_h + padding)` with
`aspect_ratio = bubble_height / bubble_width` modelled as the exact
rational `bh / bw`. -/
def bubbleH (measure : Nat → Nat × Nat) (ratioW bw bh fs : Nat) : Nat :=
  max (bubbleW measure ratioW fs * bh / bw) ((measure fs).2 + padding)

/-- The font-size search loop of `add_bubble_with_names` (lines 157-179)
on the path where the truetype font is available, so the reload at line
179 always succeeds. Accept when the candidate bubble fits inside the
base image (line 172); otherwise decrement the size by 2 and, if it drops
below 15, set it to 15 and stop without reloading the font (lines
175-178); otherwise reload the font at the smaller size and repeat. -/
def fitLoop (measure : Nat → Nat × Nat) (baseW baseH ratioW bw bh : Nat) :
    Nat → FitState
  | fs =>
    if bubbleW measure ratioW fs ≤ baseW ∧ bubbleH measure ratioW bw bh fs ≤ baseH then
      { fontSize := fs, fontLoadedSize := fs,
        newWidth := bubbleW measure ratioW fs,
        newHeight := bubbleH measure ratioW bw bh fs,
        iters := 1, floorHit := false }
    else if h : fs - 2 < 15 then
      { fontSize := 15, fontLoadedSize := fs,
        newWidth := bubbleW measure ratioW fs,
        newHeight := bubbleH measure ratioW bw bh fs,
        iters := 1, floorHit := true }
    else
      { fitLoop measure baseW baseH ratioW bw bh (fs - 2) with
        iters := (fitLoop measure baseW baseH ratioW bw bh (fs - 2)).iters + 1 }
  termination_by fs => fs
  decreasing_by omega

/-- A drawing operation applied to the base image: the alpha paste of the
resized bubble (line 185) or the multiline text draw (line 196). -/
inductive DrawOp where
  | pasteBubble (x y : Int) (w h : Nat)
  | drawText (x y : Int) (text : String)
  deriving Repr, DecidableEq

/-- The base image (`img`). `id` models Python object identity; `ops` is
the ordered history of in-place drawing operations applied to the pixels. -/
structure Canvas where
  id : Nat
  width : Nat
  height : Nat
  ops : List DrawOp
  deriving Repr, DecidableEq

/-- Full model of `add_bubble_with_names` (lines 139-198) on the path
where the truetype font loads, so the search starts at font size 50
(line 145). The bubble is resized to the dimensions found by the loop and
pasted centered (lines 182-185); the text is re-measured with the current
font (line 188, hence at `fontLoadedSize`), horizontally centered in the
bubble (line 190), given a centered y (line 191) that is then overwritten
by the anchored y `bubble_y + top_padding` (lines 192-193), and drawn
(line 196). `ratioNum / ratioDen` model the float `size_ratio`. -/
def add_bubble_with_names (measure : Nat → Nat × Nat) (img : Canvas)
    (bw bh : Nat) (names : List String) (ratioNum ratioDen : Nat) : Canvas :=
  let base_w := img.width
  let base_h := img.height
  let text := String.intercalate "\n" names
  let ratioW := base_w * ratioNum / ratioDen
  let st := fitLoop measure base_w base_h ratioW bw bh 50
  let new_width := st.newWidth
  let new_height := st.newHeight
  let bubble_x : Int := Int.fdiv ((base_w : Int) - (new_width : Int)) 2
  let bubble_y : Int := Int.fdiv ((base_h : Int) - (new_height : Int)) 2
  let text_w := (measure st.fontLoadedSize).1
  let text_h := (measure st.fontLoadedSize).2
  let text_x : Int := bubble_x + Int.fdiv ((new_width : Int) - (text_w : Int)) 2
  let text_y : Int := bubble_y + Int.fdiv ((new_height : Int) - (text_h : Int)) 2
  let top_padding : Int := 40
  let text_y : Int := bubble_y + top_padding
  { img with ops := img.ops ++
      [DrawOp.pasteBubble bubble_x bubble_y new_width new_height,
       DrawOp.drawText text_x text_y text] }

/-- Outcome of the name-list guard in `lambda_handler`. -/
inductive HandlerAction where
  | noBirthdays
  | compose (names : List String)
  deriving Repr, DecidableEq

/-- The guard at lines 60-62 of `lambda_handler`: an empty name list
returns early with status "No birthdays this month" and the compositor is
never invoked. -/
def handleNames (names : List String) : HandlerAction :=
  if names.isEmpty then HandlerAction.noBirthdays else HandlerAction.compose names

/-- The exception raised by `ImageFont.truetype` when the font file is
unavailable (line 179 re-attempts the same path that already failed at
line 146, outside any try/except). -/
inductive FontError where
  | truetypeLoadFailed
  deriving Repr, DecidableEq

/-- The search loop as executed on the fallback path: the initial
truetype load failed, so `font_size = 30` and `font = load_default()`
(lines 147-149). The default bitmap font has fixed metrics
`measureDefault`, independent of `font_size`. If the first iteration does
not accept and the floor is not reached, line 179 calls
`ImageFont.truetype` with the same unavailable path, which raises out of
`add_bubble_with_names`. -/
def fitLoopFallback (measureDefault : Nat × Nat)
    (baseW baseH ratioW bw bh : Nat) : Except FontError FitState :=
  let measure : Nat → Nat × Nat := fun _ => measureDefault
  if bubbleW measure ratioW 30 ≤ baseW ∧ bubbleH measure ratioW bw bh 30 ≤ baseH then
    Except.ok
      { fontSize := 30, fontLoadedSize := 30,
        newWidth := bubbleW measure ratioW 30,
        newHeight := bubbleH measure ratioW bw bh 30,
        iters := 1, floorHit := false }
  else if 30 - 2 < 15 then
    Except.ok
      { fontSize := 15, fontLoadedSize := 30,
        newWidth := bubbleW measure ratioW 30,
        newHeight := bubbleH measure ratioW bw bh 30,
        iters := 1, floorHit := true }
  else
    Except.error FontError.truetypeLoadFailed

/-- Master invariant of the search loop, by strong induction on the
starting font size: every exit is either an accepting exit whose bubble
fits the base image, or a floor exit whose bubble does not fit and whose
reported size is 15; the recorded dimensions are exactly the candidate
dimensions at the size of the font still loaded; the loaded size is at
most the start, has the same parity, stays at least 15 when the start is,
and the number of measurements is at most `(start - 15) / 2 + 1`. -/
theorem fitLoop_exit_cases (measure : Nat → Nat × Nat)
    (baseW baseH ratioW bw bh : Nat) :
    ∀ fs st, fitLoop measure baseW baseH ratioW bw bh fs = st →
      ((st.floorHit = false ∧ st.fontSize = st.fontLoadedSize ∧
          st.newWidth ≤ baseW ∧ st.newHeight ≤ baseH) ∨
       (st.floorHit = true ∧ st.fontSize = 15 ∧ st.fontLoadedSize ≤ 16 ∧
          (baseW < st.newWidth ∨ baseH < st.newHeight))) ∧
      st.newWidth = bubbleW measure ratioW st.fontLoadedSize ∧
      st.newHeight = bubbleH measure ratioW bw bh st.fontLoadedSize ∧
      st.fontLoadedSize ≤ fs ∧ st.fontLoadedSize % 2 = fs % 2 ∧
      (15 ≤ fs → 15 ≤ st.fontLoadedSize) ∧
      st.iters ≤ (fs - 15) / 2 + 1 := by
  intro fs
  induction fs using Nat.strong_induction_on with
  | _ fs ih =>
    intro st hst
    rw [fitLoop] at hst
    split_ifs at hst with h1 h2
    · subst hst
      dsimp only
      exact ⟨Or.inl ⟨rfl, rfl, h1.1, h1.2⟩, rfl, rfl, Nat.le_refl _, rfl,
        fun h => h, by omega⟩
    · subst hst
      dsimp only
      refine ⟨Or.inr ⟨rfl, rfl, by omega, ?_⟩, rfl, rfl, Nat.le_refl _, rfl,
        fun h => h, by omega⟩
      rcases Nat.lt_or_ge baseW (bubbleW measure ratioW fs) with h | h
      · exact Or.inl h
      · exact Or.inr (by omega)
    · subst hst
      dsimp only
      obtain ⟨hcase, hw, hh, hle, hpar, hge, hit⟩ :=
        ih (fs - 2) (by omega) _ rfl
      exact ⟨hcase, hw, hh, by omega, by omega, fun _ => hge (by omega),
        by omega⟩

/-- C1 (counterexample): the spec says a size is accepted exactly when the
measured text height is strictly below `region.height * 0.8` (or at the
floor). The code instead accepts when the candidate bubble fits inside
the base image. At a 1000x1000 base, a 100x100 bubble, ratio width 400
and constant metrics (300, 900), the very first size 50 is accepted
(floor not reached) with bubble height 960, yet the text height 900 is
not below 80 percent of the region height (960 * 0.8 = 768) nor of the
base height (1000 * 0.8 = 800). -/
theorem accept_without_height_threshold :
    (fitLoop (fun _ => (300, 900)) 1000 1000 400 100 100 50).floorHit = false ∧
    (fitLoop (fun _ => (300, 900)) 1000 1000 400 100 100 50).fontSize = 50 ∧
    (fitLoop (fun _ => (300, 900)) 1000 1000 400 100 100 50).newHeight = 960 ∧
    (fitLoop (fun _ => (300, 900)) 1000 1000 400 100 100 50).newHeight * 8 ≤ 900 * 10 ∧
    1000 * 8 ≤ 900 * 10 := by
  refine ⟨?_, ?_, ?_, ?_, by norm_num⟩ <;>
    simp [fitLoop, bubbleW, bubbleH, padding]

/-- C1 (amended): in the font-size search, the current size is accepted
exactly when the candidate bubble fits inside the base image
(`new_width <= base_w` and `new_height <= base_h`); otherwise, when the
decremented size would drop below 15, the loop exits with `font_size`
set to 15 even though the bubble does not fit. No comparison of the text
height against `region.height * fit_threshold` occurs in the code. -/
theorem fitLoop_accept_iff_bubble_fits (measure : Nat → Nat × Nat)
    (baseW baseH ratioW bw bh fs : Nat) :
    ((fitLoop measure baseW baseH ratioW bw bh fs).floorHit = false ∧
      (fitLoop measure baseW baseH ratioW bw bh fs).newWidth ≤ baseW ∧
      (fitLoop measure baseW baseH ratioW bw bh fs).newHeight ≤ baseH ∧
      (fitLoop measure baseW baseH ratioW bw bh fs).fontSize =
        (fitLoop measure baseW baseH ratioW bw bh fs).fontLoadedSize) ∨
    ((fitLoop measure baseW baseH ratioW bw bh fs).floorHit = true ∧
      (fitLoop measure baseW baseH ratioW bw bh fs).fontSize = 15 ∧
      (baseW < (fitLoop measure baseW baseH ratioW bw bh fs).newWidth ∨
        baseH < (fitLoop measure baseW baseH ratioW bw bh fs).newHeight)) := by
  obtain ⟨hcase, _⟩ := fitLoop_exit_cases measure baseW baseH ratioW bw bh fs _ rfl
  rcases hcase with ⟨h1, h2, h3, h4⟩ | ⟨h1, h2, _, h4⟩
  · exact Or.inl ⟨h1, h3, h4, h2⟩
  · exact Or.inr ⟨h1, h2, h4⟩

/-- C2: for every font-metric function and every base-image, ratio and
bubble dimensions, the search loop starting at size 50 performs at most
`(50 - 15) / 2 + 1 = 18` measurements. Termination itself is inherent in
`fitLoop` being accepted as a total function: the size strictly
decreases by 2 on each non-accepting iteration and the floor check stops
the loop before it drops below 15. -/
theorem fitLoop_iteration_bound (measure : Nat → Nat × Nat)
    (baseW baseH ratioW bw bh : Nat) :
    (fitLoop measure baseW baseH ratioW bw bh 50).iters ≤ (50 - 15) / 2 + 1 :=
  (fitLoop_exit_cases measure baseW baseH ratioW bw bh 50 _ rfl).2.2.2.2.2.2

/-- Text metrics of a block whose bounding box is empty at every size, as
`multiline_textbbox` reports for the empty string. -/
def zeroMetrics : Nat → Nat × Nat := fun _ => (0, 0)

/-- Helper: concrete run of the search loop with zero-size text metrics on
a 1000x1000 base with a 100x100 bubble and ratio width 400: the first
size 50 is accepted with a 400x400 bubble. -/
theorem fitLoop_eval_zero_metrics :
    fitLoop zeroMetrics 1000 1000 (1000 * 2 / 5) 100 100 50 =
      { fontSize := 50, fontLoadedSize := 50, newWidth := 400, newHeight := 400,
        iters := 1, floorHit := false } := by
  simp [fitLoop, zeroMetrics, bubbleW, bubbleH, padding]

/-- C3 (counterexample): called directly with the empty name list, the
compositor does not refuse to run and does not leave the canvas
unmodified: on a fresh 1000x1000 canvas it pastes a 400x400 bubble at
(300, 300) and draws the empty text at (500, 340). No `EmptyInputError`
(or any other error channel) exists in `add_bubble_with_names`. -/
theorem empty_names_core_still_composites :
    (add_bubble_with_names zeroMetrics ⟨0, 1000, 1000, []⟩ 100 100 [] 2 5).ops =
      [DrawOp.pasteBubble 300 300 400 400, DrawOp.drawText 500 340 ""] := by
  simp only [add_bubble_with_names]
  rw [fitLoop_eval_zero_metrics]
  decide

/-- C3 (amended): an empty name list never reaches the compositor: the
orchestration layer returns early with "No birthdays this month".
The core itself, if invoked with the empty list, runs normally and
appends a bubble paste and a text draw to the canvas. -/
theorem empty_names_handled_by_orchestration :
    handleNames [] = HandlerAction.noBirthdays ∧
    ∀ (measure : Nat → Nat × Nat) (img : Canvas) (bw bh ratioNum ratioDen : Nat),
      ∃ p t, (add_bubble_with_names measure img bw bh [] ratioNum ratioDen).ops =
        img.ops ++ [p, t] := by
  refine ⟨rfl, ?_⟩
  intro measure img bw bh rn rd
  exact ⟨_, _, rfl⟩

/-- C4: on the fallback path (truetype font unavailable, default font at
size 30), a first iteration whose candidate bubble does not fit the base
image reaches line 179, which calls `ImageFont.truetype` with the same
unavailable path and raises out of the function: with default metrics
(40, 1000) on a 1000x100 base, the pipeline aborts with the font-load
exception instead of completing with the fallback font. -/
theorem fallback_font_reload_raises :
    fitLoopFallback (40, 1000) 1000 100 400 100 100 =
      Except.error FontError.truetypeLoadFailed := by
  rfl

/-- C5 (counterexample): the resize target does not always preserve the
overlay aspect ratio within 1px. With a square 100x100 bubble (aspect 1),
a 1000x1000 base, ratio width 400 and constant metrics (40, 900), the
loop accepts immediately with resize target 400x960: the height exceeds
the aspect-preserving height (400) by 560px, far more than 1px
(`newWidth * bh + newWidth < newHeight * bw`). The `max` with
`text_h + padding` at line 169 overrides the aspect-derived height. -/
theorem overlay_resize_breaks_aspect :
    (fitLoop (fun _ => (40, 900)) 1000 1000 400 100 100 50).floorHit = false ∧
    (fitLoop (fun _ => (40, 900)) 1000 1000 400 100 100 50).newWidth = 400 ∧
    (fitLoop (fun _ => (40, 900)) 1000 1000 400 100 100 50).newHeight = 960 ∧
    (fitLoop (fun _ => (40, 900)) 1000 1000 400 100 100 50).newWidth * 100 +
        (fitLoop (fun _ => (40, 900)) 1000 1000 400 100 100 50).newWidth <
      (fitLoop (fun _ => (40, 900)) 1000 1000 400 100 100 50).newHeight * 100 := by
  refine ⟨?_, ?_, ?_, ?_⟩ <;> simp [fitLoop, bubbleW, bubbleH, padding]

/-- C5 (amended): the overlay resize target satisfies
`new_width = max(int(base_w * size_ratio), text_w + 60)` and
`new_height = max(int(new_width * aspect), text_h + 60)` with the final
measured text dimensions; the intrinsic aspect ratio is preserved (up to
the 1px floor rounding) exactly when the text-required height does not
exceed the aspect-derived height, in which case
`new_height = int(new_width * bh / bw)`. -/
theorem overlay_resize_dims (measure : Nat → Nat × Nat)
    (baseW baseH ratioW bw bh fs : Nat) :
    (fitLoop measure baseW baseH ratioW bw bh fs).newWidth =
      max ratioW
        ((measure (fitLoop measure baseW baseH ratioW bw bh fs).fontLoadedSize).1 + 60) ∧
    (fitLoop measure baseW baseH ratioW bw bh fs).newHeight =
      max ((fitLoop measure baseW baseH ratioW bw bh fs).newWidth * bh / bw)
        ((measure (fitLoop measure baseW baseH ratioW bw bh fs).fontLoadedSize).2 + 60) ∧
    ((measure (fitLoop measure baseW baseH ratioW bw bh fs).fontLoadedSize).2 + 60 ≤
        (fitLoop measure baseW baseH ratioW bw bh fs).newWidth * bh / bw →
      (fitLoop measure baseW baseH ratioW bw bh fs).newHeight =
        (fitLoop measure baseW baseH ratioW bw bh fs).newWidth * bh / bw) := by
  obtain ⟨_, hw, hh, _⟩ := fitLoop_exit_cases measure baseW baseH ratioW bw bh fs _ rfl
  refine ⟨?_, ?_, ?_⟩
  · rw [hw]; rfl
  · rw [hh, hw]; rfl
  · intro hle
    rw [hh, hw]
    rw [hw] at hle
    exact max_eq_left hle

/-- Text metrics constant at (40, 40), a small two-line block that fits at
the starting size. -/
def smallMetrics : Nat → Nat × Nat := fun _ => (40, 40)

/-- Helper: concrete run of the search loop with metrics (40, 40) on a
1000x1000 base with a 100x100 bubble and ratio width 400: the first size
50 is accepted with a 400x400 bubble. -/
theorem fitLoop_eval_small_metrics :
    fitLoop smallMetrics 1000 1000 (1000 * 2 / 5) 100 100 50 =
      { fontSize := 50, fontLoadedSize := 50, newWidth := 400, newHeight := 400,
        iters := 1, floorHit := false } := by
  simp [fitLoop, smallMetrics, bubbleW, bubbleH, padding]

/-- C6: whenever the compositor runs (the overlay bubble is always
present in it), the drawn text block is horizontally centered in the
bubble using its measured width (`text_x = bubble_x +
(new_width - text_w) // 2`, line 190) and vertically anchored at
`bubble_y + top_padding` with `top_padding = 40` (lines 192-193), not
vertically centered. The concrete second part exhibits a run where the
anchored y (340) lies strictly above the centered y
(`300 + (400 - 40) // 2 = 480`), so the two modes genuinely differ. -/
theorem renderer_anchored_and_centered_x :
    (∀ (measure : Nat → Nat × Nat) (img : Canvas) (bw bh : Nat)
        (names : List String) (ratioNum ratioDen : Nat),
      ∃ bx bY tx txt,
        (add_bubble_with_names measure img bw bh names ratioNum ratioDen).ops =
          img.ops ++
            [DrawOp.pasteBubble bx bY
              (fitLoop measure img.width img.height
                (img.width * ratioNum / ratioDen) bw bh 50).newWidth
              (fitLoop measure img.width img.height
                (img.width * ratioNum / ratioDen) bw bh 50).newHeight,
             DrawOp.drawText tx (bY + 40) txt] ∧
        tx = bx + Int.fdiv
          (((fitLoop measure img.width img.height
              (img.width * ratioNum / ratioDen) bw bh 50).newWidth : Int) -
            ((measure (fitLoop measure img.width img.height
              (img.width * ratioNum / ratioDen) bw bh 50).fontLoadedSize).1 : Int)) 2) ∧
    ((add_bubble_with_names smallMetrics ⟨0, 1000, 1000, []⟩ 100 100 ["Ann"] 2 5).ops =
        [DrawOp.pasteBubble 300 300 400 400, DrawOp.drawText 480 340 "Ann"] ∧
      (340 : Int) < 300 + Int.fdiv ((400 : Int) - (40 : Int)) 2) := by
  constructor
  · intro measure img bw bh names ratioNum ratioDen
    exact ⟨_, _, _, _, rfl, rfl⟩
  · constructor
    · simp only [add_bubble_with_names]
      rw [fitLoop_eval_small_metrics]
      decide
    · decide

/-- C7: the compositor is deterministic: two invocations with identical
inputs (same canvas, same bubble dimensions, same name list, same
configuration, same font metrics) produce identical output canvases;
`add_bubble_with_names` consults no hidden randomness. -/
theorem compositor_deterministic
    (m1 m2 : Nat → Nat × Nat) (img1 img2 : Canvas) (bw1 bw2 bh1 bh2 : Nat)
    (ns1 ns2 : List String) (rn1 rn2 rd1 rd2 : Nat)
    (hm : m1 = m2) (hi : img1 = img2) (hbw : bw1 = bw2) (hbh : bh1 = bh2)
    (hn : ns1 = ns2) (hrn : rn1 = rn2) (hrd : rd1 = rd2) :
    add_bubble_with_names m1 img1 bw1 bh1 ns1 rn1 rd1 =
      add_bubble_with_names m2 img2 bw2 bh2 ns2 rn2 rd2 := by
  subst hm hi hbw hbh hn hrn hrd
  rfl

/-- C7 (witness): determinism instantiated at a concrete invocation. -/
theorem compositor_deterministic_witness :
    add_bubble_with_names smallMetrics ⟨1, 500, 500, []⟩ 50 50 ["Bo"] 2 5 =
      add_bubble_with_names smallMetrics ⟨1, 500, 500, []⟩ 50 50 ["Bo"] 2 5 :=
  compositor_deterministic smallMetrics smallMetrics ⟨1, 500, 500, []⟩
    ⟨1, 500, 500, []⟩ 50 50 50 50 ["Bo"] ["Bo"] 2 2 5 5 rfl rfl rfl rfl rfl rfl rfl

/-- C8: the compositor mutates the canvas it was handed and returns that
same canvas: the output keeps the identity (and dimensions) of the input
canvas and its pixel history is the input history extended, in place, by
exactly one bubble paste (line 185) and one text draw (line 196); no new
canvas is allocated. -/
theorem compositor_mutates_in_place (measure : Nat → Nat × Nat) (img : Canvas)
    (bw bh : Nat) (names : List String) (ratioNum ratioDen : Nat) :
    (add_bubble_with_names measure img bw bh names ratioNum ratioDen).id = img.id ∧
    (add_bubble_with_names measure img bw bh names ratioNum ratioDen).width = img.width ∧
    (add_bubble_with_names measure img bw bh names ratioNum ratioDen).height = img.height ∧
    ∃ p t, (add_bubble_with_names measure img bw bh names ratioNum ratioDen).ops =
        img.ops ++ [p, t] ∧
      (∃ x y w h, p = DrawOp.pasteBubble x y w h) ∧
      (∃ x y s, t = DrawOp.drawText x y s) :=
  ⟨rfl, rfl, rfl, _, _, rfl, ⟨_, _, _, _, rfl⟩, ⟨_, _, _, rfl⟩⟩

/-- C9: when the loop exits, the bubble resize target always contains the
final measured text block plus the 60px padding
(`text_w + 60 <= new_width` and `text_h + 60 <= new_height`, where the
final measurement at line 188 is taken with the font still loaded), since
each candidate dimension is the max of the ratio-derived value and the
required text size (lines 163-169). The second part exhibits a floor-hit
run on a 1000x100 base where the bubble height 1060 exceeds the canvas
height, so the bubble may overflow the canvas when the floor is reached. -/
theorem bubble_contains_text_plus_padding :
    (∀ (measure : Nat → Nat × Nat) (baseW baseH ratioW bw bh : Nat),
      (measure (fitLoop measure baseW baseH ratioW bw bh 50).fontLoadedSize).1 + 60 ≤
        (fitLoop measure baseW baseH ratioW bw bh 50).newWidth ∧
      (measure (fitLoop measure baseW baseH ratioW bw bh 50).fontLoadedSize).2 + 60 ≤
        (fitLoop measure baseW baseH ratioW bw bh 50).newHeight) ∧
    ((fitLoop (fun _ => (40, 1000)) 1000 100 400 100 100 50).floorHit = true ∧
      100 < (fitLoop (fun _ => (40, 1000)) 1000 100 400 100 100 50).newHeight) := by
  constructor
  · intro measure baseW baseH ratioW bw bh
    obtain ⟨_, hw, hh, _⟩ := fitLoop_exit_cases measure baseW baseH ratioW bw bh 50 _ rfl
    constructor
    · rw [hw]; exact le_max_right _ _
    · rw [hh]; exact le_max_right _ _
  · constructor <;> simp [fitLoop, bubbleW, bubbleH, padding]

/-- C10: whenever the search exits through the floor branch starting from
size 50, the reported `font_size` is 15 but the font still loaded (and
used for the final measurement and draw at lines 188-196) has size 16: a
font of the floor size 15 is never loaded. -/
theorem floor_font_never_loaded (measure : Nat → Nat × Nat)
    (baseW baseH ratioW bw bh : Nat)
    (hfloor : (fitLoop measure baseW baseH ratioW bw bh 50).floorHit = true) :
    (fitLoop measure baseW baseH ratioW bw bh 50).fontSize = 15 ∧
    (fitLoop measure baseW baseH ratioW bw bh 50).fontLoadedSize = 16 ∧
    15 < (fitLoop measure baseW baseH ratioW bw bh 50).fontLoadedSize := by
  obtain ⟨hcase, _, _, hle, hpar, hge, _⟩ :=
    fitLoop_exit_cases measure baseW baseH ratioW bw bh 50 _ rfl
  have h15 := hge (by omega)
  rcases hcase with ⟨h1, _⟩ | ⟨_, h2, h3, _⟩
  · rw [hfloor] at h1; cases h1
  · exact ⟨h2, by omega, by omega⟩

/-- C10 (witness): a run that hits the floor (metrics too tall for a
1000x100 base at every size): the exit has `font_size = 15` with the size
16 font still loaded. -/
theorem floor_font_never_loaded_witness :
    (fitLoop (fun _ => (44, 1000)) 1000 100 400 100 100 50).fontSize = 15 ∧
    (fitLoop (fun _ => (44, 1000)) 1000 100 400 100 100 50).fontLoadedSize = 16 ∧
    15 < (fitLoop (fun _ => (44, 1000)) 1000 100 400 100 100 50).fontLoadedSize :=
  floor_font_never_loaded (fun _ => (44, 1000)) 1000 100 400 100 100
    (by simp [fitLoop, bubbleW, bubbleH, padding])

/-- C5 (witness): with small constant metrics (40, 40) on a 1000x1000
base and a square 100x100 bubble, the text-required height (100) does not
exceed the aspect-derived height (400), so the resize target preserves
the bubble aspect: `new_height = new_width * 100 / 100`. -/
theorem overlay_resize_dims_witness :
    (fitLoop smallMetrics 1000 1000 400 100 100 50).newHeight =
      (fitLoop smallMetrics 1000 1000 400 100 100 50).newWidth * 100 / 100 :=
  (overlay_resize_dims smallMetrics 1000 1000 400 100 100 50).2.2
    (by simp [fitLoop, smallMetrics, bubbleW, bubbleH, padding])
